import Mathlib

/-!
Shallow embedding of the MyhealthVault backend's authorization and
TestOrder-lifecycle core: the HospitalSharing model
(`backend/src/models/HospitalSharing.js`), the TestOrder model
(`backend/src/models/TestOrder.js`), the `canAccessPatient` middleware
(`backend/src/middleware/auth.js`), and the route handlers of
`backend/src/routes/testOrder.routes.js` and
`backend/src/routes/hospitalSharing.routes.js`.

Mongoose ObjectIds are modelled as `Nat`, `Date` values as `Nat`
timestamps, and the document store as explicit `List`s passed to each
function.  Route handlers become pure functions from the request context
(actor, looked-up documents, body) to a `RouteResult`, mirroring the
sequence of early returns in the JavaScript source.
-/

namespace MyHealthVault

/-- User roles as used by the multi-tenant middleware and routes. -/
inductive Role
  | super_admin
  | hospital_admin
  | doctor
  | nurse
  | department_staff
  | patient
  | pending_approval
  deriving DecidableEq, Repr

/-- Hospital approval status (`approvalStatus` in Hospital.js). -/
inductive ApprovalStatus
  | pending
  | approved
  | rejected
  deriving DecidableEq, Repr

/-- Hospital subscription status (`subscriptionStatus` in Hospital.js). -/
inductive SubscriptionStatus
  | pending
  | active
  | suspended
  | expired
  deriving DecidableEq, Repr

/-- The Hospital fields consulted by the sharing and auth code. -/
structure Hospital where
  id : Nat
  approvalStatus : ApprovalStatus
  subscriptionStatus : SubscriptionStatus
  allowCrossHospitalSharing : Bool
  deriving DecidableEq, Repr

/-- Instance method `canShareRecords` (Hospital.js lines 128-134). -/
def Hospital.canShareRecords (h : Hospital) : Bool :=
  h.approvalStatus == .approved && h.subscriptionStatus == .active &&
    h.allowCrossHospitalSharing

/-- Modelled from the spec: `isUsable(hospital)` of spec section 4.2
(approvalStatus approved AND subscriptionStatus active).  No function of
this name exists in the source; it is stated here only so that claims
phrased in terms of `isUsable` can be compared with the code. -/
def Hospital.specIsUsable (h : Hospital) : Bool :=
  h.approvalStatus == .approved && h.subscriptionStatus == .active

/-- HospitalSharing `status` enum. -/
inductive SharingStatus
  | pending
  | approved
  | rejected
  | revoked
  deriving DecidableEq, Repr

/-- The HospitalSharing fields consulted by `canAccess` and the request
route; other schema fields (permissions, scope, counters) are not read by
the code under verification. -/
structure SharingRecord where
  requestingHospitalId : Nat
  targetHospitalId : Nat
  status : SharingStatus
  isActive : Bool
  expiresAt : Option Nat
  requestReason : String
  requestedBy : Nat
  deriving DecidableEq, Repr

/-- Virtual `isExpired` (HospitalSharing.js lines 111-114): expired iff an
expiry is set and `new Date() > expiresAt`. -/
def SharingRecord.isExpired (now : Nat) (r : SharingRecord) : Bool :=
  match r.expiresAt with
  | none => false
  | some e => decide (now > e)

namespace HospitalSharing

/-- The query predicate of the static `canAccess` (HospitalSharing.js
lines 164-169): requesting/target match, status approved, isActive. -/
def accessQuery (req tgt : Nat) (r : SharingRecord) : Bool :=
  r.requestingHospitalId == req && r.targetHospitalId == tgt &&
    r.status == .approved && r.isActive

/-- Static `HospitalSharingSchema.statics.canAccess` (HospitalSharing.js
lines 160-175): `findOne` on the query, false when absent or expired. -/
def canAccess (db : List SharingRecord) (now req tgt : Nat) : Bool :=
  match db.find? (accessQuery req tgt) with
  | none => false
  | some sharing => !sharing.isExpired now

/-- Modelled from the claim's words (claim C1): a record exists for the
ordered pair with status approved, isActive, and either no expiry or
strictly `now < expiresAt`.  Stated only for comparison with the code's
`canAccess`. -/
def specCanAccessStrict (db : List SharingRecord) (now req tgt : Nat) : Bool :=
  db.any fun r =>
    accessQuery req tgt r &&
      (match r.expiresAt with
       | none => true
       | some e => decide (now < e))

end HospitalSharing

/-- The compound unique index of HospitalSharing.js lines 102-105: at most
one record per ordered (requesting, target) pair. -/
def UniquePairs (db : List SharingRecord) : Prop :=
  ∀ r1 ∈ db, ∀ r2 ∈ db,
    r1.requestingHospitalId = r2.requestingHospitalId →
    r1.targetHospitalId = r2.targetHospitalId → r1 = r2

/-- TestOrder `paymentStatus` enum (TestOrder.js lines 69-74). -/
inductive PaymentStatus
  | pending
  | paid
  | failed
  | refunded
  | waived
  deriving DecidableEq, Repr

/-- TestOrder `status` enum (TestOrder.js lines 87-100). -/
inductive OrderStatus
  | ordered
  | payment_pending
  | payment_failed
  | ready_for_test
  | in_progress
  | completed
  | cancelled
  deriving DecidableEq, Repr

/-- The TestOrder document (TestOrder.js).  Dates are `Option Nat`
timestamps; unset ObjectId references are `none`. -/
structure TestOrder where
  patientId : Nat
  orderedBy : Nat
  hospitalId : Nat
  departmentId : Nat
  paymentRequired : Bool
  paymentAmount : Nat
  paymentStatus : PaymentStatus
  paymentDate : Option Nat := none
  paymentMethod : Option String := none
  paymentReference : Option String := none
  paidBy : Option Nat := none
  status : OrderStatus
  result : Option String := none
  resultNotes : Option String := none
  resultFileUrl : Option String := none
  resultFileType : Option String := none
  normalRange : Option String := none
  abnormalFlag : Option Bool := none
  resultUploadedBy : Option Nat := none
  resultUploadedAt : Option Nat := none
  completedDate : Option Nat := none
  cancelledDate : Option Nat := none
  cancelledBy : Option Nat := none
  cancellationReason : Option String := none
  deriving DecidableEq, Repr

/-- The pre-save hook of TestOrder.js lines 234-249: when
`paymentStatus` was modified to `paid` and the status is still
`payment_pending` or `ordered`, advance it to `ready_for_test`.  (The
hook's second branch, defaulting an unset `paymentStatus`, can never fire
in this model because the enum field is always populated.) -/
def TestOrder.preSave (o : TestOrder) (paymentStatusModified : Bool) : TestOrder :=
  if paymentStatusModified && o.paymentStatus == .paid &&
      (o.status == .payment_pending || o.status == .ordered) then
    { o with status := .ready_for_test }
  else o

/-- Virtual `canUploadResult` (TestOrder.js lines 162-167). -/
def TestOrder.canUploadResult (o : TestOrder) : Bool :=
  (o.paymentStatus == .paid || o.paymentStatus == .waived) &&
    (o.status == .ready_for_test || o.status == .in_progress)

/-- Instance method `markAsPaid` (TestOrder.js lines 170-178): sets
paymentStatus to paid, stamps the payment details, and sets status to
`ready_for_test` unconditionally, then saves (running the pre-save hook;
`paymentStatus` counts as modified when its value changed). -/
def TestOrder.markAsPaid (o : TestOrder) (method reference : String)
    (payer now : Nat) : TestOrder :=
  let saved : TestOrder :=
    { o with
      paymentStatus := .paid
      paymentDate := some now
      paymentMethod := some method
      paymentReference := some reference
      paidBy := some payer
      status := .ready_for_test }
  saved.preSave (o.paymentStatus != .paid)

/-- The result payload assembled by the upload-result route
(testOrder.routes.js lines 458-465). -/
structure ResultData where
  result : String
  notes : Option String := none
  fileUrl : Option String := none
  fileType : Option String := none
  normalRange : Option String := none
  abnormalFlag : Bool := false
  deriving DecidableEq, Repr

/-- The message of the exception thrown by `uploadResult`
(TestOrder.js line 183). -/
def msgUploadGuard : String := "Cannot upload result: Payment not confirmed"

/-- Instance method `uploadResult` (TestOrder.js lines 181-198): throws
unless `canUploadResult`; otherwise records the result fields, the
uploader and the completion date and sets status to `completed`.  The
throw happens before any field is written, so a failed call leaves the
document untouched. -/
def TestOrder.uploadResult (o : TestOrder) (d : ResultData)
    (uploadedBy now : Nat) : Except String TestOrder :=
  if !o.canUploadResult then
    .error msgUploadGuard
  else
    .ok ((({ o with
      result := some d.result
      resultNotes := d.notes
      resultFileUrl := d.fileUrl
      resultFileType := d.fileType
      normalRange := d.normalRange
      abnormalFlag := some d.abnormalFlag
      resultUploadedBy := some uploadedBy
      resultUploadedAt := some now
      status := .completed
      completedDate := some now } : TestOrder).preSave false))

/-- The User fields consulted by the middleware and routes. -/
structure User where
  id : Nat
  role : Role
  hospitalId : Option Nat := none
  departmentId : Option Nat := none
  deriving DecidableEq, Repr

/-- The Department fields consulted by the test-order creation route. -/
structure Department where
  id : Nat
  hospitalId : Nat
  deriving DecidableEq, Repr

/-- Outcome of the `canAccessPatient` middleware: either control passes to
the handler, or the request is answered with an HTTP status and message. -/
inductive AccessDecision
  | allow
  | denied (httpStatus : Nat) (message : String)
  deriving DecidableEq, Repr

def msgPatientNotFound : String := "Patient not found"
def msgDeptStaffDenied : String := "Department staff cannot directly access patient records"
def msgNoPatientPermission : String := "You do not have permission to access this patient data"
def msgAccessCheckCrash : String := "Failed to check patient access"

/-- The `canAccessPatient` middleware (auth.js lines 205-273).  The
request's `patientId` is looked up in `users`; a missing or non-patient
target yields 404.  Then, in source order: super admin allows; a patient
actor whose id equals the requested patientId allows; hospital admin,
doctor and nurse allow on same hospital or on an approved sharing grant
from their hospital to the patient's; department staff is denied
unconditionally; everything else is denied.  Dereferencing a missing
hospital id throws in the JavaScript and is caught as a 500 response. -/
def canAccessPatient (ledger : List SharingRecord) (users : List User)
    (now : Nat) (actor : User) (patientId : Nat) : AccessDecision :=
  match users.find? (fun u => u.id == patientId) with
  | none => .denied 404 msgPatientNotFound
  | some patient =>
    if patient.role != Role.patient then .denied 404 msgPatientNotFound
    else if actor.role == .super_admin then .allow
    else if actor.role == .patient && actor.id == patientId then .allow
    else if actor.role == .hospital_admin || actor.role == .doctor ||
        actor.role == .nurse then
      match actor.hospitalId, patient.hospitalId with
      | some ah, some ph =>
        if ah == ph then .allow
        else if HospitalSharing.canAccess ledger now ah ph then .allow
        else .denied 403 msgNoPatientPermission
      | _, _ => .denied 500 msgAccessCheckCrash
    else if actor.role == .department_staff then
      .denied 403 msgDeptStaffDenied
    else .denied 403 msgNoPatientPermission

/-- Outcome of a route handler: a successful JSON payload, or an error
response with an HTTP status and message. -/
inductive RouteResult (α : Type)
  | ok (value : α)
  | err (httpStatus : Nat) (message : String)
  deriving DecidableEq, Repr

/-- Whether a route result is a success. -/
def RouteResult.isOk {α : Type} : RouteResult α → Bool
  | .ok _ => true
  | .err _ _ => false

/-- The status of the order returned by a successful test-order route. -/
def RouteResult.orderStatus : RouteResult TestOrder → Option OrderStatus
  | .ok o => some o.status
  | .err _ _ => none

def msgHealthcareRequired : String := "Healthcare worker access required"
def msgDeptStaffRequired : String := "Department staff access required"
def msgHospitalAdminRequired : String := "Hospital admin access required"
def msgOrderNotFound : String := "Test order not found"
def msgDeptNotFound : String := "Department not found"
def msgWrongHospitalDept : String := "Department must belong to your hospital"
def msgNotYourDeptTest : String := "You can only access tests for your department"
def msgNotYourDeptUpload : String := "You can only upload results for your department"
def msgPaymentRequired : String := "Test cannot be started until payment is confirmed"
def msgCannotUpload : String := "Payment must be confirmed before uploading results"
def msgPayOwnOnly : String := "You can only pay for your own tests"
def msgInsufficientPerms : String := "Insufficient permissions"
def msgAlreadyPaid : String := "This test has already been paid for"
def msgRouteCrash : String := "Internal server error"

/-- Middleware `requireHealthcareWorker` (auth.js lines 127-135). -/
def requireHealthcareWorker (r : Role) : Bool :=
  r == .super_admin || r == .hospital_admin || r == .doctor || r == .nurse

/-- Middleware `requireDepartmentStaff` (auth.js lines 138-146). -/
def requireDepartmentStaff (r : Role) : Bool :=
  r == .super_admin || r == .hospital_admin || r == .department_staff

/-- Middleware `requireHospitalAdmin` (auth.js lines 116-124). -/
def requireHospitalAdmin (r : Role) : Bool :=
  r == .super_admin || r == .hospital_admin

/-- Request body of POST /api/test-orders.  `paymentRequired` is `none`
when the field is absent from the JSON body. -/
structure CreateOrderBody where
  patientId : Nat
  departmentId : Nat
  paymentAmount : Nat
  paymentRequired : Option Bool := none
  deriving DecidableEq, Repr

/-- POST /api/test-orders (testOrder.routes.js lines 52-134):
authenticate, `requireHealthcareWorker`, validation, `canAccessPatient`,
then the handler looks up the department, rejects one outside the actor's
hospital, and otherwise creates the order with
status/paymentStatus derived from `paymentRequired !== false`. -/
def createTestOrderRoute (ledger : List SharingRecord) (users : List User)
    (departments : List Department) (now : Nat) (actor : User)
    (body : CreateOrderBody) : RouteResult TestOrder :=
  if !requireHealthcareWorker actor.role then
    .err 403 msgHealthcareRequired
  else
    match canAccessPatient ledger users now actor body.patientId with
    | .denied s m => .err s m
    | .allow =>
      match departments.find? (fun d => d.id == body.departmentId) with
      | none => .err 404 msgDeptNotFound
      | some department =>
        match actor.hospitalId with
        | none => .err 500 msgRouteCrash
        | some ah =>
          if department.hospitalId != ah then
            .err 400 msgWrongHospitalDept
          else
            let required := body.paymentRequired != some false
            .ok { patientId := body.patientId
                  orderedBy := actor.id
                  hospitalId := ah
                  departmentId := body.departmentId
                  paymentRequired := required
                  paymentAmount := body.paymentAmount
                  paymentStatus := if required then .pending else .waived
                  status := if required then .payment_pending else .ready_for_test }

/-- PUT /api/test-orders/:orderId/start (testOrder.routes.js lines
365-408): authenticate, `requireDepartmentStaff`, 404 when absent, 403 on
a department mismatch, 400 while payment is neither paid nor waived, and
otherwise set status to `in_progress` and save.  There is no guard on the
current `status` field. -/
def startTestRoute (actor : User) (order : Option TestOrder) :
    RouteResult TestOrder :=
  if !requireDepartmentStaff actor.role then
    .err 403 msgDeptStaffRequired
  else
    match order with
    | none => .err 404 msgOrderNotFound
    | some o =>
      match actor.departmentId with
      | none => .err 500 msgRouteCrash
      | some d =>
        if o.departmentId != d then .err 403 msgNotYourDeptTest
        else if !(o.paymentStatus == .paid) && !(o.paymentStatus == .waived) then
          .err 400 msgPaymentRequired
        else
          .ok (TestOrder.preSave { o with status := .in_progress } false)

/-- PUT /api/test-orders/:orderId/upload-result (testOrder.routes.js
lines 415-489): authenticate, `requireDepartmentStaff`, 404 when absent,
403 on a department mismatch, 400 unless `canUploadResult`, then the
model's `uploadResult` runs (its own throw, unreachable here, would be
caught as a 500). -/
def uploadResultRoute (actor : User) (order : Option TestOrder)
    (d : ResultData) (now : Nat) : RouteResult TestOrder :=
  if !requireDepartmentStaff actor.role then
    .err 403 msgDeptStaffRequired
  else
    match order with
    | none => .err 404 msgOrderNotFound
    | some o =>
      match actor.departmentId with
      | none => .err 500 msgRouteCrash
      | some dep =>
        if o.departmentId != dep then .err 403 msgNotYourDeptUpload
        else if !o.canUploadResult then .err 400 msgCannotUpload
        else
          match o.uploadResult d actor.id now with
          | .ok saved => .ok saved
          | .error _ => .err 500 msgRouteCrash

/-- POST /api/test-orders/:orderId/mark-paid (testOrder.routes.js lines
500-567): authenticate, validation, 404 when absent; a patient may pay
only their own order; any role other than patient or hospital_admin gets
403; an already-paid order gets 400; otherwise `markAsPaid` runs. -/
def markPaidRoute (actor : User) (order : Option TestOrder)
    (method reference : String) (now : Nat) : RouteResult TestOrder :=
  match order with
  | none => .err 404 msgOrderNotFound
  | some o =>
    if actor.role == .patient && o.patientId != actor.id then
      .err 403 msgPayOwnOnly
    else if actor.role != .hospital_admin && actor.role != .patient then
      .err 403 msgInsufficientPerms
    else if o.paymentStatus == .paid then
      .err 400 msgAlreadyPaid
    else
      .ok (o.markAsPaid method reference actor.id now)

def msgSelfSharing : String := "Cannot request sharing with your own hospital"
def msgTargetNotFound : String := "Target hospital not found"
def msgTargetNotApproved : String := "Target hospital is not approved"
def msgRequestExists : String := "Request Exists"
def msgReasonRequired : String := "Reason for request is required"

/-- JavaScript `String.prototype.trim` (used by the express-validator
`.trim()` sanitiser), modelled structurally on the character list so that
concrete instances evaluate inside the kernel. -/
def strTrim (s : String) : String :=
  ⟨((s.data.dropWhile Char.isWhitespace).reverse.dropWhile Char.isWhitespace).reverse⟩

/-- Request body of POST /api/hospital-sharing/request. -/
structure SharingRequestBody where
  targetHospitalId : Nat
  requestReason : String
  deriving DecidableEq, Repr

/-- POST /api/hospital-sharing/request (hospitalSharing.routes.js lines
641-722): authenticate, `requireHospitalAdmin`, validation (non-empty
trimmed reason), then in handler order: self-sharing 400, target lookup
404, target approval check 400 (only `approvalStatus` is consulted),
duplicate pair of any status 400, otherwise a pending record is created.
Dereferencing a missing own hospital id throws and is caught as 500. -/
def requestSharingRoute (actor : User) (hospitals : List Hospital)
    (db : List SharingRecord) (body : SharingRequestBody) :
    RouteResult SharingRecord :=
  if !requireHospitalAdmin actor.role then
    .err 403 msgHospitalAdminRequired
  else if strTrim body.requestReason == "" then
    .err 400 msgReasonRequired
  else
    match actor.hospitalId with
    | none => .err 500 msgRouteCrash
    | some myHospital =>
      if body.targetHospitalId == myHospital then
        .err 400 msgSelfSharing
      else
        match hospitals.find? (fun h => h.id == body.targetHospitalId) with
        | none => .err 404 msgTargetNotFound
        | some target =>
          if target.approvalStatus != ApprovalStatus.approved then
            .err 400 msgTargetNotApproved
          else
            match db.find? (fun r =>
                r.requestingHospitalId == myHospital &&
                r.targetHospitalId == body.targetHospitalId) with
            | some _ => .err 400 msgRequestExists
            | none =>
              .ok { requestingHospitalId := myHospital
                    targetHospitalId := body.targetHospitalId
                    status := .pending
                    isActive := true
                    expiresAt := none
                    requestReason := body.requestReason
                    requestedBy := actor.id }

/-! ## Helper lemmas -/

theorem accessQuery_eq_true {A B : Nat} {r : SharingRecord} :
    HospitalSharing.accessQuery A B r = true ↔
      r.requestingHospitalId = A ∧ r.targetHospitalId = B ∧
      r.status = SharingStatus.approved ∧ r.isActive = true := by
  simp [HospitalSharing.accessQuery, and_assoc]

theorem isExpired_eq_false {now : Nat} {r : SharingRecord} :
    r.isExpired now = false ↔
      (r.expiresAt = none ∨ ∃ e, r.expiresAt = some e ∧ now ≤ e) := by
  unfold SharingRecord.isExpired
  cases hx : r.expiresAt with
  | none => simp
  | some e =>
    simp only [decide_eq_false_iff_not, Nat.not_lt]
    constructor
    · intro h
      exact Or.inr ⟨e, rfl, h⟩
    · rintro (h | ⟨e2, he2, h⟩)
      · exact absurd h (by simp)
      · cases he2
        exact h

/-- A concrete approved, active, never-expiring grant from hospital 1 to
hospital 2. -/
def dirGrant : SharingRecord :=
  { requestingHospitalId := 1
    targetHospitalId := 2
    status := .approved
    isActive := true
    expiresAt := none
    requestReason := "records"
    requestedBy := 7 }

/-- The same grant but expiring at time 100. -/
def boundaryGrant : SharingRecord :=
  { dirGrant with expiresAt := some 100 }

/-! ## Claim C1 -/

/-- Claim C1, counterexample to the claim as stated: with a single
approved, active grant from hospital 1 to hospital 2 expiring at time
100, at `now = 100` the code's `canAccess` returns true, while the
claim's predicate (which requires strictly `now < expiresAt`) is false —
the stated iff fails at the expiry instant. -/
theorem canAccess_strict_expiry_counterexample :
    HospitalSharing.canAccess [boundaryGrant] 100 1 2 = true ∧
    HospitalSharing.specCanAccessStrict [boundaryGrant] 100 1 2 = false := by
  decide

/-- Claim C1 (amended): for every store whose records satisfy the schema's
compound unique index on the ordered (requesting, target) pair, and every
pair of hospitals (A,B) and time `now`, `canAccess A B` returns true iff a
record exists with requestingHospitalId = A, targetHospitalId = B, status
approved, isActive, and either no expiry or `now ≤ expiresAt` (the code
treats the grant as expired only strictly after `expiresAt`).  The
predicate is directional: the concrete store `[dirGrant]` grants 1 → 2 but
not 2 → 1. -/
theorem canAccess_iff_record_exists :
    (∀ (db : List SharingRecord) (now A B : Nat), UniquePairs db →
      (HospitalSharing.canAccess db now A B = true ↔
        ∃ r ∈ db, r.requestingHospitalId = A ∧ r.targetHospitalId = B ∧
          r.status = SharingStatus.approved ∧ r.isActive = true ∧
          (r.expiresAt = none ∨ ∃ e, r.expiresAt = some e ∧ now ≤ e))) ∧
    HospitalSharing.canAccess [dirGrant] 50 1 2 = true ∧
    HospitalSharing.canAccess [dirGrant] 50 2 1 = false := by
  refine ⟨?_, by decide, by decide⟩
  intro db now A B huniq
  constructor
  · intro hacc
    unfold HospitalSharing.canAccess at hacc
    cases hfind : db.find? (HospitalSharing.accessQuery A B) with
    | none =>
      rw [hfind] at hacc
      exact absurd hacc (by simp)
    | some s =>
      rw [hfind] at hacc
      have hacc2 : (!s.isExpired now) = true := hacc
      have hq := List.find?_some hfind
      have hmem := List.mem_of_find?_eq_some hfind
      have hfields := accessQuery_eq_true.mp hq
      have hexp : s.isExpired now = false := by
        cases hx : s.isExpired now
        · rfl
        · rw [hx] at hacc2
          exact absurd hacc2 (by simp)
      exact ⟨s, hmem, hfields.1, hfields.2.1, hfields.2.2.1, hfields.2.2.2,
        isExpired_eq_false.mp hexp⟩
  · rintro ⟨r, hrmem, hreq, htgt, hst, hact, hexp⟩
    have hrq : HospitalSharing.accessQuery A B r = true :=
      accessQuery_eq_true.mpr ⟨hreq, htgt, hst, hact⟩
    unfold HospitalSharing.canAccess
    cases hfind : db.find? (HospitalSharing.accessQuery A B) with
    | none =>
      rw [List.find?_eq_none] at hfind
      exact absurd hrq (hfind r hrmem)
    | some s =>
      have hq := List.find?_some hfind
      have hmem := List.mem_of_find?_eq_some hfind
      have hsf := accessQuery_eq_true.mp hq
      have hsr : s = r :=
        huniq s hmem r hrmem (hsf.1.trans hreq.symm) (hsf.2.1.trans htgt.symm)
      show (!s.isExpired now) = true
      rw [hsr, isExpired_eq_false.mpr hexp]
      rfl

/-- Claim C1, witness: the amended theorem applied to the concrete
one-grant store at time 50. -/
theorem canAccess_iff_record_exists_witness :
    HospitalSharing.canAccess [dirGrant] 50 1 2 = true :=
  (canAccess_iff_record_exists.1 [dirGrant] 50 1 2
      (by
        intro r1 h1 r2 h2 _ _
        simp only [List.mem_singleton] at h1 h2
        rw [h1, h2])).mpr
    ⟨dirGrant, by simp, rfl, rfl, rfl, rfl, Or.inl rfl⟩

/-! ## Claims C3 and C4: TestOrder payment and result upload -/

theorem canUploadResult_eq_true {o : TestOrder} :
    o.canUploadResult = true ↔
      ((o.paymentStatus = PaymentStatus.paid ∨ o.paymentStatus = PaymentStatus.waived) ∧
       (o.status = OrderStatus.ready_for_test ∨ o.status = OrderStatus.in_progress)) := by
  simp [TestOrder.canUploadResult]

/-- A patient of hospital 2 with id 20. -/
def patientActor : User := { id := 20, role := .patient, hospitalId := some 2 }

/-- A payment-waived test order for patient 20 that department staff have
already started. -/
def inProgressWaivedOrder : TestOrder :=
  { patientId := 20
    orderedBy := 10
    hospitalId := 1
    departmentId := 5
    paymentRequired := false
    paymentAmount := 100
    paymentStatus := .waived
    status := .in_progress }

/-- The same order after its result has been uploaded. -/
def completedWaivedOrder : TestOrder :=
  { inProgressWaivedOrder with status := .completed }

/-- Claim C3, code bug: `markAsPaid` assigns `status = ready_for_test`
unconditionally (TestOrder.js line 176), so marking a payment-waived
order paid through POST /:orderId/mark-paid regresses an `in_progress`
order — and even a `completed` order — back to `ready_for_test`,
although the schema's own pre-save hook (lines 234-240) advances status
only from `payment_pending`/`ordered` and the route accepts the call
because `paymentStatus` is `waived`, not `paid`. -/
theorem markPaid_regresses_started_order :
    inProgressWaivedOrder.status = OrderStatus.in_progress ∧
    (markPaidRoute patientActor (some inProgressWaivedOrder) "cash" "R1" 99).orderStatus
      = some OrderStatus.ready_for_test ∧
    completedWaivedOrder.status = OrderStatus.completed ∧
    (markPaidRoute patientActor (some completedWaivedOrder) "cash" "R1" 99).orderStatus
      = some OrderStatus.ready_for_test := by
  decide

/-- Claim C4: `uploadResult` succeeds iff paymentStatus is paid or waived
and status is ready_for_test or in_progress; on success the saved order is
completed with completedDate and uploader identity stamped; otherwise the
method throws its guard error without touching the order, and the route
answers 400 with the order unchanged. -/
theorem uploadResult_guard (o : TestOrder) (d : ResultData) (u now : Nat) :
    ((∃ saved, o.uploadResult d u now = .ok saved) ↔
       ((o.paymentStatus = PaymentStatus.paid ∨ o.paymentStatus = PaymentStatus.waived) ∧
        (o.status = OrderStatus.ready_for_test ∨ o.status = OrderStatus.in_progress))) ∧
    (∀ saved, o.uploadResult d u now = .ok saved →
       saved.status = OrderStatus.completed ∧ saved.completedDate = some now ∧
       saved.resultUploadedBy = some u ∧ saved.resultUploadedAt = some now) ∧
    (o.canUploadResult = false →
       o.uploadResult d u now = .error msgUploadGuard) ∧
    (∀ actor : User, actor.role = Role.department_staff →
       actor.departmentId = some o.departmentId → o.canUploadResult = false →
       uploadResultRoute actor (some o) d now = .err 400 msgCannotUpload) := by
  refine ⟨⟨?_, ?_⟩, ?_, ?_, ?_⟩
  · rintro ⟨saved, hs⟩
    unfold TestOrder.uploadResult at hs
    cases hguard : o.canUploadResult with
    | false =>
      rw [hguard] at hs
      exact absurd hs (by simp)
    | true => exact canUploadResult_eq_true.mp hguard
  · intro hcond
    have h := canUploadResult_eq_true.mpr hcond
    unfold TestOrder.uploadResult
    rw [h]
    exact ⟨_, rfl⟩
  · intro saved hs
    unfold TestOrder.uploadResult at hs
    cases hguard : o.canUploadResult with
    | false =>
      rw [hguard] at hs
      exact absurd hs (by simp)
    | true =>
      rw [hguard] at hs
      simp only [Bool.not_true] at hs
      rw [if_neg (by simp)] at hs
      cases hs
      exact ⟨rfl, rfl, rfl, rfl⟩
  · intro hguard
    unfold TestOrder.uploadResult
    rw [hguard]
    rfl
  · intro actor hrole hdep hguard
    unfold uploadResultRoute
    rw [hrole]
    simp only [requireDepartmentStaff]
    rw [hdep]
    simp [hguard]

/-- A ready, unpaid test order in department 5. -/
def unpaidReadyOrder : TestOrder :=
  { inProgressWaivedOrder with paymentStatus := .pending, status := .payment_pending }

/-- Claim C4, witness: the guard clause of the theorem applied to a
concrete payment-pending order. -/
theorem uploadResult_guard_witness :
    unpaidReadyOrder.uploadResult { result := "12 mg" } 40 60 = .error msgUploadGuard :=
  (uploadResult_guard unpaidReadyOrder { result := "12 mg" } 40 60).2.2.1 rfl

/-! ## Claims C5 and C6: the canAccessPatient decision -/

/-- Claim C5: a department-staff actor is denied direct patient-record
access unconditionally — no hospital condition appears in the hypotheses,
so the denial holds even when the actor's hospital equals the patient's —
and the TestOrder start and upload-result routes reject orders whose
departmentId differs from the actor's own. -/
theorem deptStaff_denied_direct_access (ledger : List SharingRecord)
    (users : List User) (now : Nat) (actor : User) (pid : Nat) (p : User)
    (hrole : actor.role = Role.department_staff)
    (hfound : users.find? (fun u => u.id == pid) = some p)
    (hp : p.role = Role.patient) :
    canAccessPatient ledger users now actor pid = .denied 403 msgDeptStaffDenied ∧
    (∀ (o : TestOrder) (dep : Nat) (d : ResultData),
       actor.departmentId = some dep → o.departmentId ≠ dep →
       startTestRoute actor (some o) = .err 403 msgNotYourDeptTest ∧
       uploadResultRoute actor (some o) d now = .err 403 msgNotYourDeptUpload) := by
  constructor
  · simp [canAccessPatient, hfound, hp, hrole]
  · intro o dep d hdep hne
    constructor
    · simp [startTestRoute, requireDepartmentStaff, hrole, hdep, hne]
    · simp [uploadResultRoute, requireDepartmentStaff, hrole, hdep, hne]

/-- A same-hospital patient and department-staff pair used as the C5
witness: both belong to hospital 3, yet direct access is denied. -/
def patientH3 : User := { id := 21, role := .patient, hospitalId := some 3 }

def staffH3 : User :=
  { id := 41, role := .department_staff, hospitalId := some 3, departmentId := some 5 }

/-- An order in department 6, foreign to `staffH3`'s department 5. -/
def foreignDeptOrder : TestOrder :=
  { inProgressWaivedOrder with departmentId := 6 }

/-- Claim C5, witness: the theorem applied to a same-hospital
staff/patient pair and a foreign-department order. -/
theorem deptStaff_denied_direct_access_witness :
    canAccessPatient [] [patientH3] 0 staffH3 21 = .denied 403 msgDeptStaffDenied ∧
    startTestRoute staffH3 (some foreignDeptOrder) = .err 403 msgNotYourDeptTest :=
  ⟨(deptStaff_denied_direct_access [] [patientH3] 0 staffH3 21 patientH3 rfl rfl rfl).1,
   ((deptStaff_denied_direct_access [] [patientH3] 0 staffH3 21 patientH3 rfl rfl rfl).2
      foreignDeptOrder 5 { result := "x" } rfl (by decide)).1⟩

/-- Claim C6: a patient actor whose id equals the requested patientId is
allowed by `canAccessPatient`, with no constraint at all on the actor's or
the patient document's hospital. -/
theorem patient_reads_own_data (ledger : List SharingRecord)
    (users : List User) (now : Nat) (actor : User) (pid : Nat) (p : User)
    (hrole : actor.role = Role.patient) (hid : actor.id = pid)
    (hfound : users.find? (fun u => u.id == pid) = some p)
    (hp : p.role = Role.patient) :
    canAccessPatient ledger users now actor pid = .allow := by
  simp [canAccessPatient, hfound, hp, hrole, hid]

/-- A patient user affiliated with hospital 2; records about them are
owned by hospital 2 while the lookup works for the patient themself. -/
def patientSelf : User := { id := 22, role := .patient, hospitalId := some 2 }

/-- Claim C6, witness: the theorem applied to a concrete patient reading
their own data with an empty sharing ledger. -/
theorem patient_reads_own_data_witness :
    canAccessPatient [] [patientSelf] 7 patientSelf 22 = .allow :=
  patient_reads_own_data [] [patientSelf] 7 patientSelf 22 patientSelf rfl rfl rfl rfl

/-! ## Claim C7: the start route -/

/-- Department-staff member of hospital 1, department 5. -/
def deptStaffActor : User :=
  { id := 41, role := .department_staff, hospitalId := some 1, departmentId := some 5 }

/-- A paid order in department 5 that is ready to be performed. -/
def readyPaidOrder : TestOrder :=
  { patientId := 20
    orderedBy := 10
    hospitalId := 1
    departmentId := 5
    paymentRequired := true
    paymentAmount := 100
    paymentStatus := .paid
    status := .ready_for_test }

/-- The order `readyPaidOrder` after a successful start. -/
def startedOrder : TestOrder := { readyPaidOrder with status := .in_progress }

/-- Claim C7, counterexample: the start route carries no guard on the
current `status`, so of two consecutive start() calls on the same order
BOTH succeed — the second does not receive any state-conflict error —
and start() even succeeds on an already-completed order. -/
theorem start_twice_both_succeed :
    startTestRoute deptStaffActor (some readyPaidOrder) = .ok startedOrder ∧
    startTestRoute deptStaffActor (some startedOrder) = .ok startedOrder ∧
    (startTestRoute deptStaffActor (some completedWaivedOrder)).orderStatus
      = some OrderStatus.in_progress := by
  decide

/-- Claim C7 (amended): for a department-staff actor on an order of their
own department, start() fails with the payment error and leaves the order
unchanged whenever paymentStatus is neither paid nor waived; whenever
paymentStatus is paid or waived it succeeds and sets the status to
`in_progress` regardless of the current status.  Hence repeated start()
calls all succeed — the order always ends in the defined state
`in_progress` — and no state-conflict error exists on this route. -/
theorem start_guarded_by_payment_only (actor : User) (o : TestOrder) (dep : Nat)
    (hrole : actor.role = Role.department_staff)
    (hdep : actor.departmentId = some dep) (hmatch : o.departmentId = dep) :
    (o.paymentStatus ≠ PaymentStatus.paid → o.paymentStatus ≠ PaymentStatus.waived →
       startTestRoute actor (some o) = .err 400 msgPaymentRequired) ∧
    ((o.paymentStatus = PaymentStatus.paid ∨ o.paymentStatus = PaymentStatus.waived) →
       startTestRoute actor (some o) = .ok { o with status := .in_progress }) := by
  constructor
  · intro hnp hnw
    simp [startTestRoute, requireDepartmentStaff, hrole, hdep, hmatch, hnp, hnw]
  · intro hpay
    have hcond : (o.paymentStatus == PaymentStatus.paid) = true ∨
        (o.paymentStatus == PaymentStatus.waived) = true := by
      rcases hpay with h | h
      · exact Or.inl (by rw [h]; rfl)
      · exact Or.inr (by rw [h]; rfl)
    rcases hcond with h | h <;>
      simp [startTestRoute, requireDepartmentStaff, hrole, hdep, hmatch, h,
        TestOrder.preSave]

/-- Claim C7, witness: the amended theorem applied to the concrete
ready-and-paid order of department 5. -/
theorem start_guarded_by_payment_only_witness :
    startTestRoute deptStaffActor (some readyPaidOrder)
      = .ok { readyPaidOrder with status := .in_progress } :=
  (start_guarded_by_payment_only deptStaffActor readyPaidOrder 5 rfl rfl rfl).2
    (Or.inl rfl)

/-! ## Claim C10: the mark-paid route's role policy -/

/-- Claim C10: at POST /:orderId/mark-paid, a patient may act only on
their own order; every role other than patient and hospital_admin —
super_admin, doctor, nurse, department_staff, pending_approval — receives
403; an already-paid order is rejected with 400 before any mutation; and
an authorized call on a not-yet-paid order succeeds with paymentStatus
set to paid. -/
theorem markPaid_role_guard (actor : User) (o : TestOrder) (m r : String) (now : Nat) :
    (actor.role ≠ Role.patient → actor.role ≠ Role.hospital_admin →
       markPaidRoute actor (some o) m r now = .err 403 msgInsufficientPerms) ∧
    (actor.role = Role.patient → o.patientId ≠ actor.id →
       markPaidRoute actor (some o) m r now = .err 403 msgPayOwnOnly) ∧
    ((actor.role = Role.hospital_admin ∨ (actor.role = Role.patient ∧ o.patientId = actor.id)) →
       o.paymentStatus = PaymentStatus.paid →
       markPaidRoute actor (some o) m r now = .err 400 msgAlreadyPaid) ∧
    ((actor.role = Role.hospital_admin ∨ (actor.role = Role.patient ∧ o.patientId = actor.id)) →
       o.paymentStatus ≠ PaymentStatus.paid →
       ∃ saved, markPaidRoute actor (some o) m r now = .ok saved ∧
         saved.paymentStatus = PaymentStatus.paid) := by
  refine ⟨?_, ?_, ?_, ?_⟩
  · intro h1 h2
    simp [markPaidRoute, h1, h2]
  · intro h1 h2
    simp [markPaidRoute, h1, h2]
  · rintro (h | ⟨h, hown⟩) hpaid
    · simp [markPaidRoute, h, hpaid]
    · simp [markPaidRoute, h, hown, hpaid]
  · rintro (h | ⟨h, hown⟩) hnot
    · refine ⟨o.markAsPaid m r actor.id now, by simp [markPaidRoute, h, hnot], ?_⟩
      simp [TestOrder.markAsPaid, TestOrder.preSave]
    · refine ⟨o.markAsPaid m r actor.id now,
        by simp [markPaidRoute, h, hown, hnot], ?_⟩
      simp [TestOrder.markAsPaid, TestOrder.preSave]

/-- A platform super admin with no hospital affiliation. -/
def superAdminActor : User := { id := 1, role := .super_admin }

/-- Claim C10, witness: the theorem applied to the super admin (403 on
mark-paid despite the global role) and to the order's own patient paying
a pending order. -/
theorem markPaid_role_guard_witness :
    markPaidRoute superAdminActor (some unpaidReadyOrder) "cash" "R2" 5
      = .err 403 msgInsufficientPerms ∧
    ∃ saved, markPaidRoute patientActor (some unpaidReadyOrder) "cash" "R2" 5
      = .ok saved ∧ saved.paymentStatus = PaymentStatus.paid :=
  ⟨(markPaid_role_guard superAdminActor unpaidReadyOrder "cash" "R2" 5).1
      (by decide) (by decide),
   (markPaid_role_guard patientActor unpaidReadyOrder "cash" "R2" 5).2.2.2
      (Or.inr ⟨rfl, rfl⟩) (by decide)⟩

/-! ## Claims C2 and C8: test-order creation -/

/-- A doctor of hospital 1. -/
def doctorH1 : User := { id := 10, role := .doctor, hospitalId := some 1 }

/-- Claim C8: for a doctor allowed to reach the handler, a department of a
foreign hospital is rejected 400 and no order is created; a department of
the doctor's own hospital yields a created order whose status and
paymentStatus are payment_pending/pending when payment is required and
ready_for_test/waived when `paymentRequired` is explicitly false. -/
theorem create_order_hospital_and_initial_state (ledger : List SharingRecord)
    (users : List User) (departments : List Department) (now : Nat)
    (actor : User) (body : CreateOrderBody) (dept : Department) (h : Nat)
    (hrole : actor.role = Role.doctor)
    (hah : actor.hospitalId = some h)
    (haccess : canAccessPatient ledger users now actor body.patientId = .allow)
    (hdept : departments.find? (fun d => d.id == body.departmentId) = some dept) :
    (dept.hospitalId ≠ h →
       createTestOrderRoute ledger users departments now actor body
         = .err 400 msgWrongHospitalDept) ∧
    (dept.hospitalId = h →
       ∃ o, createTestOrderRoute ledger users departments now actor body = .ok o ∧
         o.hospitalId = h ∧ o.patientId = body.patientId ∧
         o.orderedBy = actor.id ∧
         (body.paymentRequired ≠ some false →
            o.status = OrderStatus.payment_pending ∧
            o.paymentStatus = PaymentStatus.pending) ∧
         (body.paymentRequired = some false →
            o.status = OrderStatus.ready_for_test ∧
            o.paymentStatus = PaymentStatus.waived)) := by
  constructor
  · intro hdne
    simp [createTestOrderRoute, requireHealthcareWorker, hrole, haccess, hdept,
      hah, hdne]
  · intro heq
    refine ⟨{ patientId := body.patientId
              orderedBy := actor.id
              hospitalId := h
              departmentId := body.departmentId
              paymentRequired := body.paymentRequired != some false
              paymentAmount := body.paymentAmount
              paymentStatus :=
                if body.paymentRequired != some false then .pending else .waived
              status :=
                if body.paymentRequired != some false then .payment_pending
                else .ready_for_test }, ?_, rfl, rfl, rfl, ?_, ?_⟩
    · simp [createTestOrderRoute, requireHealthcareWorker, hrole, haccess, hdept,
        hah, heq]
    · intro hreq
      have hb : (body.paymentRequired != some false) = true := by
        simp [bne_iff_ne, hreq]
      constructor
      · show (if (body.paymentRequired != some false) = true
            then OrderStatus.payment_pending else OrderStatus.ready_for_test)
            = OrderStatus.payment_pending
        rw [hb]
        rfl
      · show (if (body.paymentRequired != some false) = true
            then PaymentStatus.pending else PaymentStatus.waived)
            = PaymentStatus.pending
        rw [hb]
        rfl
    · intro hreq
      have hb : (body.paymentRequired != some false) = false := by
        simp [hreq]
      constructor
      · show (if (body.paymentRequired != some false) = true
            then OrderStatus.payment_pending else OrderStatus.ready_for_test)
            = OrderStatus.ready_for_test
        rw [hb]
        rfl
      · show (if (body.paymentRequired != some false) = true
            then PaymentStatus.pending else PaymentStatus.waived)
            = PaymentStatus.waived
        rw [hb]
        rfl

/-- A patient of hospital 1 itself, so that C8's witness does not depend
on any sharing grant. -/
def patientH1 : User := { id := 23, role := .patient, hospitalId := some 1 }

/-- An order request naming `patientH1`. -/
def orderBodyOwn : CreateOrderBody :=
  { patientId := 23, departmentId := 5, paymentAmount := 100 }

/-- A department of hospital 9, foreign to `doctorH1`. -/
def deptH9 : Department := { id := 6, hospitalId := 9 }

/-- Claim C8, witness: the theorem applied to the doctor ordering at a
foreign hospital's department (rejected) for a same-hospital patient. -/
theorem create_order_hospital_guard_witness :
    createTestOrderRoute [] [patientH1] [deptH9] 0 doctorH1
      { patientId := 23, departmentId := 6, paymentAmount := 100 }
      = .err 400 msgWrongHospitalDept :=
  (create_order_hospital_and_initial_state [] [patientH1] [deptH9] 0 doctorH1
      { patientId := 23, departmentId := 6, paymentAmount := 100 } deptH9 1
      rfl rfl (by decide) rfl).1 (by decide)

/-! ## Claim C9: requesting a sharing grant -/

/-- The admin of hospital 1. -/
def adminH1 : User := { id := 50, role := .hospital_admin, hospitalId := some 1 }

/-- Hospital 2, approved but with a suspended subscription: it fails the
spec's `isUsable` test while passing the route's approval-only check. -/
def suspendedTarget : Hospital :=
  { id := 2
    approvalStatus := .approved
    subscriptionStatus := .suspended
    allowCrossHospitalSharing := true }

/-- A sharing request from hospital 1 towards hospital 2. -/
def sharingBody12 : SharingRequestBody :=
  { targetHospitalId := 2, requestReason := "need imaging history" }

/-- Claim C9, counterexample: the request route checks only the target's
`approvalStatus` (hospitalSharing.routes.js line 672), never its
subscription, so a request towards an approved hospital whose
subscription is suspended — which fails `isUsable` — succeeds and a
pending record IS created. -/
theorem request_ignores_subscription_counterexample :
    suspendedTarget.specIsUsable = false ∧
    (requestSharingRoute adminH1 [suspendedTarget] [] sharingBody12).isOk = true := by
  decide

/-- Claim C9 (amended): for a hospital admin with a non-empty request
reason, requestSharing fails with the self-sharing error when the target
equals the admin's own hospital; fails with the not-approved error when
the target hospital's `approvalStatus` is not approved (its subscription
status is NOT consulted at request time — only the later approval step
checks `canShareRecords`); and fails with the duplicate error when a
record of any status already exists for the ordered (requesting, target)
pair.  On each failure the route returns before `HospitalSharing.create`,
so no record is created. -/
theorem request_sharing_failure_modes (actor : User) (hospitals : List Hospital)
    (db : List SharingRecord) (body : SharingRequestBody) (h : Nat)
    (hrole : actor.role = Role.hospital_admin)
    (hah : actor.hospitalId = some h)
    (hreason : strTrim body.requestReason ≠ "") :
    (body.targetHospitalId = h →
       requestSharingRoute actor hospitals db body = .err 400 msgSelfSharing) ∧
    (∀ target, body.targetHospitalId ≠ h →
       hospitals.find? (fun x => x.id == body.targetHospitalId) = some target →
       target.approvalStatus ≠ ApprovalStatus.approved →
       requestSharingRoute actor hospitals db body = .err 400 msgTargetNotApproved) ∧
    (∀ target rec0, body.targetHospitalId ≠ h →
       hospitals.find? (fun x => x.id == body.targetHospitalId) = some target →
       target.approvalStatus = ApprovalStatus.approved →
       db.find? (fun s => s.requestingHospitalId == h &&
         s.targetHospitalId == body.targetHospitalId) = some rec0 →
       requestSharingRoute actor hospitals db body = .err 400 msgRequestExists) := by
  refine ⟨?_, ?_, ?_⟩
  · intro hself
    simp [requestSharingRoute, requireHospitalAdmin, hrole, hah, hreason, hself]
  · intro target hne hfind happ
    simp [requestSharingRoute, requireHospitalAdmin, hrole, hah, hreason, hne,
      hfind, happ]
  · intro target rec0 hne hfind happ hdup
    simp [requestSharingRoute, requireHospitalAdmin, hrole, hah, hreason, hne,
      hfind, happ, hdup]

/-- An approved, active hospital with id 1 (the admin's own). -/
def ownHospital : Hospital :=
  { id := 1
    approvalStatus := .approved
    subscriptionStatus := .active
    allowCrossHospitalSharing := true }

/-- Claim C9, witness: the theorem's self-sharing and duplicate clauses
applied at concrete inputs. -/
theorem request_sharing_failure_modes_witness :
    requestSharingRoute adminH1 [ownHospital]  []
      { targetHospitalId := 1, requestReason := "need imaging history" }
      = .err 400 msgSelfSharing ∧
    requestSharingRoute adminH1 [suspendedTarget] [dirGrant] sharingBody12
      = .err 400 msgRequestExists :=
  ⟨(request_sharing_failure_modes adminH1 [ownHospital] []
      { targetHospitalId := 1, requestReason := "need imaging history" } 1
      rfl rfl (by decide)).1 rfl,
   (request_sharing_failure_modes adminH1 [suspendedTarget] [dirGrant]
      sharingBody12 1 rfl rfl (by decide)).2.2 suspendedTarget dirGrant
      (by decide) (by decide) rfl (by decide)⟩

end MyHealthVault
